import Mathlib

/-!
Shallow embedding of the NationVitals county dashboard core: the
choropleth color binning, fill-expression construction, client data
loading and hover handling from CountyMapGL.tsx, and the API route
handlers for per-year data and the confounder-adjusted county
comparison (the two unnamed Next.js route files).
-/

/-- County metric record as loaded from county_data.json
(interface CountyData in CountyMapGL.tsx).  All numeric fields are
nullable, standing for suppressed or missing data. -/
structure CountyData where
  fips : String
  DrugDeaths : Option ℚ
  DrugDeathRate : Option ℚ
  RepublicanMargin : Option ℚ
  Population : Option ℚ
  SuicideDeaths : Option ℚ
  UnemploymentRate : Option ℚ
  PovertyRate : Option ℚ
  MedianIncome : Option ℚ
deriving DecidableEq

/-- The two selectable map metrics of CountyMapGL.tsx. -/
inductive Metric where
  | drugDeaths
  | republicanMargin
deriving DecidableEq

/-- getColorForValue from CountyMapGL.tsx: a null value maps to the
neutral color, otherwise one of two strict greater-than threshold
cascades is evaluated top-down, first match wins. -/
def getColorForValue (value : Option ℚ) (isPolitic : Bool) : String :=
  match value with
  | none => "#e5e7eb"
  | some v =>
    if isPolitic then
      if v > 40 then "#7f1d1d"
      else if v > 20 then "#dc2626"
      else if v > 0 then "#fca5a5"
      else if v > -20 then "#93c5fd"
      else if v > -40 then "#2563eb"
      else "#1e3a8a"
    else
      if v > 40 then "#7f1d1d"
      else if v > 30 then "#dc2626"
      else if v > 20 then "#f97316"
      else if v > 10 then "#facc15"
      else "#22c55e"

/-- The value picked for a metric inside updateMapColors:
DrugDeathRate for the drugDeaths view, RepublicanMargin for the
republicanMargin view. -/
def metricValue (m : Metric) (d : CountyData) : Option ℚ :=
  match m with
  | Metric.drugDeaths => d.DrugDeathRate
  | Metric.republicanMargin => d.RepublicanMargin

/-- The categorical match expression built by updateMapColors: an
ordered list of fips-to-color pairs followed by one default fallback
color, matched against the GEOID of each county geometry. -/
structure MatchExpr where
  pairs : List (String × String)
  fallback : String
deriving DecidableEq

/-- updateMapColors from CountyMapGL.tsx: for every entry of the
loaded county data it pushes the fips together with the color of that
county under the selected metric, then pushes the single default
color. -/
def buildFillExpression (m : Metric) (entries : List (String × CountyData)) : MatchExpr :=
  { pairs := entries.map (fun e =>
      (e.1, getColorForValue (metricValue m e.2) (m == Metric.republicanMargin))),
    fallback := "#e5e7eb" }

/-- Semantics of a MapLibre categorical match expression: the first
pair whose key equals the looked-up GEOID gives the color, otherwise
the final default color applies. -/
def evalMatch (expr : MatchExpr) (key : String) : String :=
  match expr.pairs.find? (fun pr => pr.1 == key) with
  | some pr => pr.2
  | none => expr.fallback

/-- Insert-or-replace on the fips-keyed record map, mirroring the
JavaScript object assignment dataMap[county.fips] = county. -/
def setEntry (m : List (String × CountyData)) (k : String) (v : CountyData) :
    List (String × CountyData) :=
  if m.any (fun pr => pr.1 == k) then
    m.map (fun pr => if pr.1 == k then (k, v) else pr)
  else
    m ++ [(k, v)]

/-- The data-load effect of CountyMapGL.tsx: each record whose fips is
truthy and different from the string "0" is stored under its fips; all
other records are dropped. -/
def loadCountyData (data : List CountyData) : List (String × CountyData) :=
  data.foldl
    (fun m c => if c.fips ≠ "" ∧ c.fips ≠ "0" then setEntry m c.fips c else m)
    []

/-- Lookup in the fips-keyed record map, mirroring countyData[fips]. -/
def lookupEntry (m : List (String × CountyData)) (k : String) : Option CountyData :=
  (m.find? (fun pr => pr.1 == k)).map Prod.snd

/-- A rendered feature as seen by the hover handler: its properties
may lack GEOID or NAME. -/
structure Feature where
  GEOID : Option String
  NAME : Option String
deriving DecidableEq

/-- The tooltip payload set by setHoveredCounty: the feature name
spread together with the county record. -/
structure Tooltip where
  name : Option String
  data : CountyData
deriving DecidableEq

/-- The hover-relevant component state: the hoveredCounty tooltip and
the canvas cursor style. -/
structure HoverState where
  hoveredCounty : Option Tooltip
  cursor : String
deriving DecidableEq

/-- handleMouseMove from CountyMapGL.tsx: with no feature under the
pointer the tooltip is cleared and the cursor reset; with a topmost
feature whose GEOID has a loaded record the tooltip is set and the
cursor becomes pointer; with a topmost feature but no matching record
the state is left untouched. -/
def handleMouseMove (countyData : List (String × CountyData))
    (features : List Feature) (st : HoverState) : HoverState :=
  match features with
  | [] => { hoveredCounty := none, cursor := "" }
  | f :: _ =>
    match f.GEOID with
    | none => st
    | some fips =>
      match lookupEntry countyData fips with
      | some d => { hoveredCounty := some { name := f.NAME, data := d }, cursor := "pointer" }
      | none => st

/-- handleMouseLeave from CountyMapGL.tsx: clears the tooltip and the
cursor unconditionally. -/
def handleMouseLeave (_st : HoverState) : HoverState :=
  { hoveredCounty := none, cursor := "" }

/-- The raw query parameters of a compare request, each being the
result of searchParams.get: absent parameters are none. -/
structure CompareParams where
  countyA : Option String
  countyB : Option String
  year : Option String
  controlPoverty : Option String
  controlIncome : Option String
  controlUrbanRural : Option String
deriving DecidableEq

/-- A query parameter is missing in the JavaScript sense used by the
compare route guard: null, or the empty (falsy) string. -/
def missingParam (o : Option String) : Bool :=
  match o with
  | none => true
  | some s => s == ""

/-- A control flag parses to true exactly when the raw parameter is
the string "true", mirroring searchParams.get(x) === the string
true. -/
def parseFlag (o : Option String) : Bool :=
  match o with
  | none => false
  | some s => s == "true"

/-- The year parameter with the falsy-or default of the compare route:
absent or empty falls back to 2023. -/
def yearOrDefault (o : Option String) : String :=
  match o with
  | none => "2023"
  | some s => if s == "" then "2023" else s

/-- The textual Python boolean the compare route passes through to the
interpolated script. -/
def pyBool (b : Bool) : String :=
  if b then "True" else "False"

/-- A single-quote character, used when assembling the interpolated
shell command. -/
def sQuote : String :=
  String.singleton (Char.ofNat 39)

/-- The shell command string assembled by the compare route: a python3
invocation whose inline script interpolates the working directory,
both county identifiers, the year and the three Python booleans
directly into the source text. -/
def buildCommand (cwd a b y : String) (pov inc urb : Bool) : String :=
  "python3 -c \"\nimport sys\nsys.path.insert(0, " ++ sQuote ++ cwd ++ sQuote ++
  ")\nfrom statistical_controls import adjust_for_confounders\nimport json\nresult = adjust_for_confounders(\n    " ++
  sQuote ++ a ++ sQuote ++ ",\n    " ++ sQuote ++ b ++ sQuote ++ ",\n    " ++ y ++ ",\n    " ++
  pyBool pov ++ ",\n    " ++ pyBool inc ++ ",\n    " ++ pyBool urb ++
  "\n)\nprint(json.dumps(result))\n\""

/-- The outcome of the validation-and-dispatch phase of the compare
route: either the 400 missing-parameter response, or the external
process invocation with its command string and timeout in
milliseconds. -/
inductive CompareStep where
  | badRequest
  | spawn (command : String) (timeoutMs : ℕ)
deriving DecidableEq

/-- The compare route up to the external call: reads and parses the
parameters, returns 400 when countyA or countyB is null or empty, and
otherwise spawns the interpolated command with the 10000 millisecond
timeout of the execAsync options. -/
def compareValidate (cwd : String) (p : CompareParams) : CompareStep :=
  if missingParam p.countyA || missingParam p.countyB then
    CompareStep.badRequest
  else
    CompareStep.spawn
      (buildCommand cwd (p.countyA.getD "") (p.countyB.getD "")
        (yearOrDefault p.year)
        (parseFlag p.controlPoverty) (parseFlag p.controlIncome)
        (parseFlag p.controlUrbanRural))
      10000

/-- The observable outcome of the external process call: either it
completed and produced stdout, or it failed (nonzero exit, spawn
error, or the timeout kill), in which case execAsync rejects. -/
inductive ExtOutcome where
  | success (stdout : String)
  | procFailure
deriving DecidableEq

/-- The response of the compare route: 400 for missing parameters, 200
with the parsed result passed through unchanged, or 500 from the
catch-all handler. -/
inductive CompareResponse (R : Type) where
  | badRequest
  | ok (result : R)
  | internalError
deriving DecidableEq

/-- The whole compare route handler, with JSON.parse supplied as a
function returning none exactly when parsing throws: after validation
it inspects the external outcome, parses the trimmed stdout, and maps
every failure to the 500 response. -/
def compareHandler {R : Type} (parse : String → Option R) (cwd : String)
    (p : CompareParams) (ext : ExtOutcome) : CompareResponse R :=
  match compareValidate cwd p with
  | CompareStep.badRequest => CompareResponse.badRequest
  | CompareStep.spawn _ _ =>
    match ext with
    | ExtOutcome.success out =>
      match parse out.trim with
      | some r => CompareResponse.ok r
      | none => CompareResponse.internalError
    | ExtOutcome.procFailure => CompareResponse.internalError

/-- The file path probed by the year route:
public/data/years/{year}.json under the working directory. -/
def yearFilePath (cwd year : String) : String :=
  cwd ++ "/public/data/years/" ++ year ++ ".json"

/-- The response of the year route: the 404 body with its error
message, the 200 pass-through of the parsed file, or the 500 response
of the catch-all handler. -/
inductive YearResponse (J : Type) where
  | notFound (errMsg : String)
  | ok (data : J)
  | internalError
deriving DecidableEq

/-- The year route handler, with the readable files supplied as a map
from path to contents and JSON.parse as a function returning none
exactly when parsing throws: a missing file gives the structured 404
body, a parse failure gives 500, and a parsed file is returned
verbatim. -/
def yearHandler {J : Type} (parse : String → Option J)
    (fsFiles : String → Option String) (cwd year : String) : YearResponse J :=
  match fsFiles (yearFilePath cwd year) with
  | none => YearResponse.notFound ("Year " ++ year ++ " not found")
  | some contents =>
    match parse contents with
    | some d => YearResponse.ok d
    | none => YearResponse.internalError

/-- One string occurs verbatim inside another: the larger string
splits as some text, the occurrence, and some remaining text. -/
def containsStr (s t : String) : Prop :=
  ∃ u v : String, s = u ++ (t ++ v)

/-! ## Helper lemmas -/

/-- Unfolding of the mortality ladder of getColorForValue. -/
theorem getColor_mort (v : ℚ) :
    getColorForValue (some v) false =
      if v > 40 then "#7f1d1d"
      else if v > 30 then "#dc2626"
      else if v > 20 then "#f97316"
      else if v > 10 then "#facc15"
      else "#22c55e" := rfl

/-- Unfolding of the political ladder of getColorForValue. -/
theorem getColor_pol (v : ℚ) :
    getColorForValue (some v) true =
      if v > 40 then "#7f1d1d"
      else if v > 20 then "#dc2626"
      else if v > 0 then "#fca5a5"
      else if v > -20 then "#93c5fd"
      else if v > -40 then "#2563eb"
      else "#1e3a8a" := rfl

/-! ## Claims -/

/-- C1 counterexample: the mortality ladder sends the value exactly 40
to the 30 to 40 bin color, not to the color of the topmost bin, because
the cascade tests are strict greater-than comparisons. -/
theorem mortality_forty_counterexample :
    getColorForValue (some 40) false = "#dc2626" ∧
    getColorForValue (some 40) false ≠ "#7f1d1d" := by
  constructor
  · rw [getColor_mort]
    norm_num
  · rw [getColor_mort]
    norm_num
    decide

/-- C1 (amended): in the mortality ladder every value strictly above 30
and at most 40, hence in particular the value exactly 40, maps to the
30 to 40 bin color; the topmost bin only receives values strictly
greater than 40. -/
theorem mortality_thirty_forty_bin (v : ℚ) (h1 : 30 < v) (h2 : v ≤ 40) :
    getColorForValue (some v) false = "#dc2626" := by
  rw [getColor_mort]
  split_ifs <;> first | rfl | linarith

/-- C1 witness: the amended bin statement evaluated at the boundary
value 40. -/
theorem mortality_thirty_forty_bin_witness :
    (30 : ℚ) < 40 ∧ (40 : ℚ) ≤ 40 ∧ getColorForValue (some 40) false = "#dc2626" :=
  ⟨by norm_num, by norm_num, mortality_thirty_forty_bin 40 (by norm_num) (by norm_num)⟩

/-- C4: getColorForValue is total and deterministic: null maps to the
fixed neutral color in both ladders, and every rational value falls in
exactly one bin of the mortality ladder (thresholds 40, 30, 20, 10)
and exactly one bin of the political ladder (thresholds 40, 20, 0,
-20, -40), each bin with its own color. -/
theorem getColorForValue_total_ladders : ∀ v : ℚ,
    (∀ b : Bool, getColorForValue none b = "#e5e7eb") ∧
    ((v ≤ 10 ∧ getColorForValue (some v) false = "#22c55e") ∨
     (10 < v ∧ v ≤ 20 ∧ getColorForValue (some v) false = "#facc15") ∨
     (20 < v ∧ v ≤ 30 ∧ getColorForValue (some v) false = "#f97316") ∨
     (30 < v ∧ v ≤ 40 ∧ getColorForValue (some v) false = "#dc2626") ∨
     (40 < v ∧ getColorForValue (some v) false = "#7f1d1d")) ∧
    ((40 < v ∧ getColorForValue (some v) true = "#7f1d1d") ∨
     (20 < v ∧ v ≤ 40 ∧ getColorForValue (some v) true = "#dc2626") ∨
     (0 < v ∧ v ≤ 20 ∧ getColorForValue (some v) true = "#fca5a5") ∨
     (-20 < v ∧ v ≤ 0 ∧ getColorForValue (some v) true = "#93c5fd") ∨
     (-40 < v ∧ v ≤ -20 ∧ getColorForValue (some v) true = "#2563eb") ∨
     (v ≤ -40 ∧ getColorForValue (some v) true = "#1e3a8a")) := by
  intro v
  refine ⟨fun b => by cases b <;> rfl, ?_, ?_⟩
  · rcases le_or_lt v 10 with h1 | h1
    · exact Or.inl ⟨h1, by rw [getColor_mort]; split_ifs <;> first | rfl | linarith⟩
    · rcases le_or_lt v 20 with h2 | h2
      · exact Or.inr (Or.inl ⟨h1, h2, by
          rw [getColor_mort]; split_ifs <;> first | rfl | linarith⟩)
      · rcases le_or_lt v 30 with h3 | h3
        · exact Or.inr (Or.inr (Or.inl ⟨h2, h3, by
            rw [getColor_mort]; split_ifs <;> first | rfl | linarith⟩))
        · rcases le_or_lt v 40 with h4 | h4
          · exact Or.inr (Or.inr (Or.inr (Or.inl ⟨h3, h4, by
              rw [getColor_mort]; split_ifs <;> first | rfl | linarith⟩)))
          · exact Or.inr (Or.inr (Or.inr (Or.inr ⟨h4, by
              rw [getColor_mort]; split_ifs <;> first | rfl | linarith⟩)))
  · rcases le_or_lt v (-40) with h1 | h1
    · exact Or.inr (Or.inr (Or.inr (Or.inr (Or.inr ⟨h1, by
        rw [getColor_pol]; split_ifs <;> first | rfl | linarith⟩))))
    · rcases le_or_lt v (-20) with h2 | h2
      · exact Or.inr (Or.inr (Or.inr (Or.inr (Or.inl ⟨h1, h2, by
          rw [getColor_pol]; split_ifs <;> first | rfl | linarith⟩))))
      · rcases le_or_lt v 0 with h3 | h3
        · exact Or.inr (Or.inr (Or.inr (Or.inl ⟨h2, h3, by
            rw [getColor_pol]; split_ifs <;> first | rfl | linarith⟩)))
        · rcases le_or_lt v 20 with h4 | h4
          · exact Or.inr (Or.inr (Or.inl ⟨h3, h4, by
              rw [getColor_pol]; split_ifs <;> first | rfl | linarith⟩))
          · rcases le_or_lt v 40 with h5 | h5
            · exact Or.inr (Or.inl ⟨h4, h5, by
                rw [getColor_pol]; split_ifs <;> first | rfl | linarith⟩)
            · exact Or.inl ⟨h5, by
                rw [getColor_pol]; split_ifs <;> first | rfl | linarith⟩

/-- Helper: a control flag parses to true exactly when the raw query
parameter is literally the string "true". -/
theorem parseFlag_eq_true_iff (o : Option String) :
    parseFlag o = true ↔ o = some "true" := by
  cases o with
  | none => simp [parseFlag]
  | some s => simp [parseFlag]

/-- C7: each of the three control flags of a compare request is true
exactly when its textual value is the string "true"; absence parses to
false, and any other value, including the capitalized variant, parses
to false. -/
theorem control_flags_parse_strict_true : ∀ p : CompareParams,
    (parseFlag p.controlPoverty = true ↔ p.controlPoverty = some "true") ∧
    (parseFlag p.controlIncome = true ↔ p.controlIncome = some "true") ∧
    (parseFlag p.controlUrbanRural = true ↔ p.controlUrbanRural = some "true") ∧
    parseFlag (some "True") = false ∧
    parseFlag none = false := by
  intro p
  exact ⟨parseFlag_eq_true_iff _, parseFlag_eq_true_iff _, parseFlag_eq_true_iff _,
    by decide, rfl⟩

/-- Helper: if countyA or countyB is absent or empty then the missing
guard of the compare route fires. -/
theorem missing_guard_fires (p : CompareParams)
    (h : p.countyA = none ∨ p.countyA = some "" ∨ p.countyB = none ∨ p.countyB = some "") :
    (missingParam p.countyA || missingParam p.countyB) = true := by
  rcases h with h | h | h | h <;> simp [missingParam, h]

/-- C2: whenever countyA or countyB is absent or empty the compare
route stops at validation with the 400 response: the whole handler
answers badRequest and the spawn step is never produced, so no
external process is started. -/
theorem compare_missing_param_bad_request :
    ∀ {R : Type} (parse : String → Option R) (cwd : String)
      (p : CompareParams) (ext : ExtOutcome),
    (p.countyA = none ∨ p.countyA = some "" ∨ p.countyB = none ∨ p.countyB = some "") →
    compareValidate cwd p = CompareStep.badRequest ∧
    compareHandler parse cwd p ext = CompareResponse.badRequest ∧
    ∀ cmd t, compareValidate cwd p ≠ CompareStep.spawn cmd t := by
  intro R parse cwd p ext h
  have hm := missing_guard_fires p h
  have hv : compareValidate cwd p = CompareStep.badRequest := by
    unfold compareValidate
    rw [if_pos hm]
  refine ⟨hv, ?_, ?_⟩
  · simp [compareHandler, hv]
  · intro cmd t hc
    rw [hv] at hc
    cases hc

/-- C2 witness: a request with countyA absent, evaluated through the
validation phase and the whole handler. -/
theorem compare_missing_param_bad_request_witness :
    compareValidate "/app" ⟨none, some "06037", none, none, none, none⟩ =
      CompareStep.badRequest ∧
    compareHandler (fun _ => (none : Option Unit)) "/app"
      ⟨none, some "06037", none, none, none, none⟩ ExtOutcome.procFailure =
      CompareResponse.badRequest := by
  have h := compare_missing_param_bad_request (fun _ => (none : Option Unit)) "/app"
    ⟨none, some "06037", none, none, none, none⟩ ExtOutcome.procFailure (Or.inl rfl)
  exact ⟨h.1, h.2.1⟩

/-- C5: for every compare request that passes validation, the spawned
shell command is a single string into which countyA, countyB and the
year are interpolated verbatim: the command splits around each of the
three values. -/
theorem compare_command_interpolates :
    ∀ (cwd : String) (p : CompareParams) (a b : String),
    p.countyA = some a → a ≠ "" → p.countyB = some b → b ≠ "" →
    ∃ cmd : String,
      compareValidate cwd p = CompareStep.spawn cmd 10000 ∧
      containsStr cmd a ∧ containsStr cmd b ∧
      containsStr cmd (yearOrDefault p.year) := by
  intro cwd p a b ha hane hb hbne
  have hma : missingParam p.countyA = false := by
    rw [ha]
    simp [missingParam, hane]
  have hmb : missingParam p.countyB = false := by
    rw [hb]
    simp [missingParam, hbne]
  refine ⟨buildCommand cwd a b (yearOrDefault p.year)
      (parseFlag p.controlPoverty) (parseFlag p.controlIncome)
      (parseFlag p.controlUrbanRural), ?_, ?_, ?_, ?_⟩
  · unfold compareValidate
    rw [hma, hmb]
    simp [ha, hb]
  · refine ⟨"python3 -c \"\nimport sys\nsys.path.insert(0, " ++ sQuote ++ cwd ++ sQuote ++
      ")\nfrom statistical_controls import adjust_for_confounders\nimport json\nresult = adjust_for_confounders(\n    " ++
      sQuote,
      sQuote ++ ",\n    " ++ sQuote ++ b ++ sQuote ++ ",\n    " ++ yearOrDefault p.year ++
      ",\n    " ++ pyBool (parseFlag p.controlPoverty) ++ ",\n    " ++
      pyBool (parseFlag p.controlIncome) ++ ",\n    " ++
      pyBool (parseFlag p.controlUrbanRural) ++ "\n)\nprint(json.dumps(result))\n\"", ?_⟩
    simp [buildCommand, String.append_assoc]
  · refine ⟨"python3 -c \"\nimport sys\nsys.path.insert(0, " ++ sQuote ++ cwd ++ sQuote ++
      ")\nfrom statistical_controls import adjust_for_confounders\nimport json\nresult = adjust_for_confounders(\n    " ++
      sQuote ++ a ++ sQuote ++ ",\n    " ++ sQuote,
      sQuote ++ ",\n    " ++ yearOrDefault p.year ++ ",\n    " ++
      pyBool (parseFlag p.controlPoverty) ++ ",\n    " ++
      pyBool (parseFlag p.controlIncome) ++ ",\n    " ++
      pyBool (parseFlag p.controlUrbanRural) ++ "\n)\nprint(json.dumps(result))\n\"", ?_⟩
    simp [buildCommand, String.append_assoc]
  · refine ⟨"python3 -c \"\nimport sys\nsys.path.insert(0, " ++ sQuote ++ cwd ++ sQuote ++
      ")\nfrom statistical_controls import adjust_for_confounders\nimport json\nresult = adjust_for_confounders(\n    " ++
      sQuote ++ a ++ sQuote ++ ",\n    " ++ sQuote ++ b ++ sQuote ++ ",\n    ",
      ",\n    " ++ pyBool (parseFlag p.controlPoverty) ++ ",\n    " ++
      pyBool (parseFlag p.controlIncome) ++ ",\n    " ++
      pyBool (parseFlag p.controlUrbanRural) ++ "\n)\nprint(json.dumps(result))\n\"", ?_⟩
    simp [buildCommand, String.append_assoc]

/-- C5 witness: a concrete valid request and the interpolated command
it spawns. -/
theorem compare_command_interpolates_witness :
    ∃ cmd : String,
      compareValidate "/app" ⟨some "01001", some "06037", some "2021", none, none, none⟩ =
        CompareStep.spawn cmd 10000 ∧
      containsStr cmd "01001" ∧ containsStr cmd "06037" ∧
      containsStr cmd (yearOrDefault (some "2021")) :=
  compare_command_interpolates "/app"
    ⟨some "01001", some "06037", some "2021", none, none, none⟩
    "01001" "06037" rfl (by decide) rfl (by decide)

/-- C3: the spawn step always carries the 10000 millisecond timeout of
the execAsync options, and the compare handler is total over every
external outcome: it answers 400, 500 or 200, with a process failure
(error or timeout kill) and a malformed stdout both mapped to an error
response, never left unanswered. -/
theorem compare_timeout_and_totality :
    ∀ {R : Type} (parse : String → Option R) (cwd : String)
      (p : CompareParams) (ext : ExtOutcome),
    (∀ cmd t, compareValidate cwd p = CompareStep.spawn cmd t → t = 10000) ∧
    (compareHandler parse cwd p ext = CompareResponse.badRequest ∨
     compareHandler parse cwd p ext = CompareResponse.internalError ∨
     ∃ r, compareHandler parse cwd p ext = CompareResponse.ok r) ∧
    (ext = ExtOutcome.procFailure →
      compareHandler parse cwd p ext = CompareResponse.badRequest ∨
      compareHandler parse cwd p ext = CompareResponse.internalError) ∧
    (∀ out, ext = ExtOutcome.success out → parse out.trim = none →
      compareHandler parse cwd p ext = CompareResponse.badRequest ∨
      compareHandler parse cwd p ext = CompareResponse.internalError) := by
  intro R parse cwd p ext
  refine ⟨?_, ?_, ?_, ?_⟩
  · intro cmd t h
    unfold compareValidate at h
    split at h
    · simp at h
    · injection h with h1 h2
      exact h2.symm
  · cases hv : compareValidate cwd p with
    | badRequest => exact Or.inl (by simp [compareHandler, hv])
    | spawn cmd t =>
      cases ext with
      | procFailure => exact Or.inr (Or.inl (by simp [compareHandler, hv]))
      | success out =>
        cases hp : parse out.trim with
        | none => exact Or.inr (Or.inl (by simp [compareHandler, hv, hp]))
        | some r => exact Or.inr (Or.inr ⟨r, by simp [compareHandler, hv, hp]⟩)
  · intro hext
    subst hext
    cases hv : compareValidate cwd p with
    | badRequest => exact Or.inl (by simp [compareHandler, hv])
    | spawn cmd t => exact Or.inr (by simp [compareHandler, hv])
  · intro out hext hp
    subst hext
    cases hv : compareValidate cwd p with
    | badRequest => exact Or.inl (by simp [compareHandler, hv])
    | spawn cmd t => exact Or.inr (by simp [compareHandler, hv, hp])

/-- C3 witness: a concrete valid request whose external process fails,
evaluated through the handler, and the timeout of its spawn step. -/
theorem compare_timeout_and_totality_witness :
    (10000 : ℕ) = 10000 ∧
    (compareHandler (fun _ => (none : Option Unit)) "/app"
        ⟨some "01001", some "06037", none, none, none, none⟩ ExtOutcome.procFailure =
        CompareResponse.badRequest ∨
     compareHandler (fun _ => (none : Option Unit)) "/app"
        ⟨some "01001", some "06037", none, none, none, none⟩ ExtOutcome.procFailure =
        CompareResponse.internalError) := by
  have h := compare_timeout_and_totality (fun _ => (none : Option Unit)) "/app"
    ⟨some "01001", some "06037", none, none, none, none⟩ ExtOutcome.procFailure
  exact ⟨h.1 (buildCommand "/app" "01001" "06037" "2023" false false false) 10000 rfl,
    h.2.2.1 rfl⟩

/-- C6: the year route answers the structured 404 body when no file
exists for the requested year, answers 500 when an existing file fails
to parse, and is total: every request gets one of the 404, 500 or 200
responses, never a crash. -/
theorem year_route_handles :
    ∀ {J : Type} (parse : String → Option J) (fsFiles : String → Option String)
      (cwd year : String),
    (fsFiles (yearFilePath cwd year) = none →
      yearHandler parse fsFiles cwd year =
        YearResponse.notFound ("Year " ++ year ++ " not found")) ∧
    (∀ c, fsFiles (yearFilePath cwd year) = some c → parse c = none →
      yearHandler parse fsFiles cwd year = YearResponse.internalError) ∧
    (yearHandler parse fsFiles cwd year =
        YearResponse.notFound ("Year " ++ year ++ " not found") ∨
     yearHandler parse fsFiles cwd year = YearResponse.internalError ∨
     ∃ d, yearHandler parse fsFiles cwd year = YearResponse.ok d) := by
  intro J parse fsFiles cwd year
  refine ⟨?_, ?_, ?_⟩
  · intro hf
    simp [yearHandler, hf]
  · intro c hf hp
    simp [yearHandler, hf, hp]
  · cases hf : fsFiles (yearFilePath cwd year) with
    | none => exact Or.inl (by simp [yearHandler, hf])
    | some c =>
      cases hp : parse c with
      | none => exact Or.inr (Or.inl (by simp [yearHandler, hf, hp]))
      | some d => exact Or.inr (Or.inr ⟨d, by simp [yearHandler, hf, hp]⟩)

/-- C6 witness: the request for the year 1899 against a store with no
published files yields the structured 404 body. -/
theorem year_route_handles_witness :
    yearHandler (fun _ => (none : Option Unit)) (fun _ => (none : Option String))
      "/app" "1899" = YearResponse.notFound "Year 1899 not found" :=
  (year_route_handles (fun _ => (none : Option Unit)) (fun _ => (none : Option String))
    "/app" "1899").1 rfl

/-- C8: the fill expression built by updateMapColors lists one
fips-to-color pair for every loaded county entry, in order, carries
exactly the one default fallback color, and evaluating it at any GEOID
with no loaded entry yields the fallback color. -/
theorem fill_expression_covers_and_falls_back :
    ∀ (m : Metric) (entries : List (String × CountyData)),
    (buildFillExpression m entries).pairs =
      entries.map (fun e =>
        (e.1, getColorForValue (metricValue m e.2) (m == Metric.republicanMargin))) ∧
    (buildFillExpression m entries).pairs.length = entries.length ∧
    (buildFillExpression m entries).fallback = "#e5e7eb" ∧
    ∀ fips : String, fips ∉ entries.map Prod.fst →
      evalMatch (buildFillExpression m entries) fips = "#e5e7eb" := by
  intro m entries
  refine ⟨rfl, by simp [buildFillExpression], rfl, ?_⟩
  intro fips hf
  have hnone : List.find? (fun pr => pr.1 == fips)
      (buildFillExpression m entries).pairs = none := by
    rw [List.find?_eq_none]
    intro x hx
    have hx' : x ∈ entries.map (fun e =>
        (e.1, getColorForValue (metricValue m e.2) (m == Metric.republicanMargin))) := hx
    rw [List.mem_map] at hx'
    obtain ⟨e, he, rfl⟩ := hx'
    simp only [beq_iff_eq]
    intro heq
    exact hf (heq ▸ List.mem_map_of_mem Prod.fst he)
  unfold evalMatch
  rw [hnone]
  rfl

/-- C8 witness: a one-entry data set evaluated at a GEOID with no
entry renders the fallback color. -/
theorem fill_expression_covers_and_falls_back_witness :
    evalMatch (buildFillExpression Metric.drugDeaths
      [("01001", ⟨"01001", none, none, none, none, none, none, none, none⟩)]) "99999" =
      "#e5e7eb" :=
  (fill_expression_covers_and_falls_back Metric.drugDeaths
    [("01001", ⟨"01001", none, none, none, none, none, none, none, none⟩)]).2.2.2
    "99999" (by decide)

/-- Helper: inserting a record can only add its own key to the key set
of the fips-keyed map. -/
theorem setEntry_keys (m : List (String × CountyData)) (k : String) (v : CountyData) :
    ∀ x ∈ (setEntry m k v).map Prod.fst, x ∈ m.map Prod.fst ∨ x = k := by
  intro x hx
  unfold setEntry at hx
  split at hx
  · rw [List.mem_map] at hx
    obtain ⟨y, hy, hyx⟩ := hx
    rw [List.mem_map] at hy
    obtain ⟨pr, hpr, hfy⟩ := hy
    by_cases hk : (pr.1 == k) = true
    · right
      rw [← hyx, ← hfy]
      simp [hk]
    · left
      rw [← hyx, ← hfy]
      simp only [hk, if_false, Bool.false_eq_true, if_neg]
      exact List.mem_map_of_mem Prod.fst hpr
  · rw [List.map_append, List.mem_append] at hx
    rcases hx with hx | hx
    · exact Or.inl hx
    · right
      simp at hx
      exact hx

/-- Helper: the data-load fold keeps every key of the accumulating map
nonempty and different from the string "0". -/
theorem loadAux_keys : ∀ (data : List CountyData) (acc : List (String × CountyData)),
    (∀ x ∈ acc.map Prod.fst, x ≠ "" ∧ x ≠ "0") →
    ∀ x ∈ (data.foldl
        (fun m c => if c.fips ≠ "" ∧ c.fips ≠ "0" then setEntry m c.fips c else m)
        acc).map Prod.fst,
      x ≠ "" ∧ x ≠ "0" := by
  intro data
  induction data with
  | nil => exact fun acc hacc x hx => hacc x hx
  | cons c rest ih =>
    intro acc hacc x hx
    rw [List.foldl_cons] at hx
    refine ih _ ?_ x hx
    intro y hy
    by_cases hc : c.fips ≠ "" ∧ c.fips ≠ "0"
    · rw [if_pos hc] at hy
      rcases setEntry_keys acc c.fips c y hy with h | h
      · exact hacc y h
      · rw [h]
        exact hc
    · rw [if_neg hc] at hy
      exact hacc y hy

/-- C9: every key of the loaded county map is a nonempty fips string
different from the string "0", and consequently a record whose fips is
empty or the string "0" is silently dropped: it never appears as an
entry of the loaded map. -/
theorem loadCountyData_keys_invariant : ∀ (data : List CountyData),
    (∀ k, k ∈ (loadCountyData data).map Prod.fst → k ≠ "" ∧ k ≠ "0") ∧
    (∀ (c v : CountyData), (c.fips = "" ∨ c.fips = "0") →
      (c.fips, v) ∉ loadCountyData data) := by
  intro data
  have hmain : ∀ k, k ∈ (loadCountyData data).map Prod.fst → k ≠ "" ∧ k ≠ "0" :=
    fun k hk => loadAux_keys data [] (by intro x hx; simp at hx) k hk
  refine ⟨hmain, ?_⟩
  intro c v hbad hmem
  have hk : c.fips ∈ (loadCountyData data).map Prod.fst :=
    List.mem_map_of_mem Prod.fst hmem
  rcases hbad with h | h
  · exact (hmain c.fips hk).1 h
  · exact (hmain c.fips hk).2 h

/-- C9 witness: a concrete load with one well-formed record, whose key
is checked against the invariant. -/
theorem loadCountyData_keys_invariant_witness :
    ("01001" : String) ≠ "" ∧ ("01001" : String) ≠ "0" :=
  (loadCountyData_keys_invariant
    [⟨"01001", none, none, none, none, none, none, none, none⟩]).1 "01001" (by decide)

/-- C10: when the topmost feature under the pointer has no loaded
record for its GEOID the hover state, tooltip included, is left
unchanged; the tooltip is cleared exactly when no feature is hit or
the pointer leaves the layer. -/
theorem hover_preserves_without_record :
    ∀ (cd : List (String × CountyData)) (f : Feature) (fs : List Feature)
      (st : HoverState),
    ((∀ fips, f.GEOID = some fips → lookupEntry cd fips = none) →
      handleMouseMove cd (f :: fs) st = st) ∧
    handleMouseMove cd [] st = { hoveredCounty := none, cursor := "" } ∧
    handleMouseLeave st = { hoveredCounty := none, cursor := "" } := by
  intro cd f fs st
  refine ⟨?_, rfl, rfl⟩
  intro h
  cases hg : f.GEOID with
  | none => simp [handleMouseMove, hg]
  | some fips => simp [handleMouseMove, hg, h fips hg]

/-- C10 witness: a hit feature with an unknown GEOID leaves a
previously displayed tooltip in place. -/
theorem hover_preserves_without_record_witness :
    handleMouseMove [] [⟨some "99999", some "Somewhere"⟩]
      ⟨some ⟨some "Autauga", ⟨"01001", none, none, none, none, none, none, none, none⟩⟩,
        "pointer"⟩ =
      ⟨some ⟨some "Autauga", ⟨"01001", none, none, none, none, none, none, none, none⟩⟩,
        "pointer"⟩ :=
  (hover_preserves_without_record [] ⟨some "99999", some "Somewhere"⟩ []
    ⟨some ⟨some "Autauga", ⟨"01001", none, none, none, none, none, none, none, none⟩⟩,
      "pointer"⟩).1 (by intro fips hg; rfl)
